import Mathlib

/-!
Shallow embedding of the hilan-attendance repository's core logic:
the pay-period calculator (`models.py`, `browser/pages/calendar.py`),
the time/status parsers (`calendar.py`, `vocabulary.py`), the attendance
data model (`models.py`), the detail-row reconciliation and merge rules
(`calendar.py  get_attendance`), and the batch-fill orchestration
(`calendar.py  fill_batch`, `attendance.py  fill_attendance`).

The external browser is modelled as an `Env` record holding what each
browser query/evaluate of `fill_batch` would observe, and every browser
interaction performed on a normal return path is logged into a trace of
`Action`s.  Python's dynamic typing at the `fill_attendance` →
`fill_batch` boundary is modelled by `FillArg` (a genuine
`FillInstruction` or the plain 4-tuple that `fill_attendance` builds),
with attribute access returning `Except PyErr`.
-/

namespace Hilan

/-- A calendar date, as Python's `datetime.date`: year, month (1-12), day. -/
structure Date where
  year : Nat
  month : Nat
  day : Nat
deriving DecidableEq

/-- A time of day, as Python's `datetime.time(hour, minute)`. -/
structure Time where
  hour : Nat
  minute : Nat
deriving DecidableEq

/-- models.py `get_pay_period(for_date, start_day)`: the (year, month) pay
period a date belongs to; on or after `start_day` the date falls in the next
month's period, with December rolling over to January of the next year. -/
def get_pay_period (for_date : Date) (start_day : Nat) : Nat × Nat :=
  if for_date.day ≥ start_day then
    if for_date.month = 12 then (for_date.year + 1, 1)
    else (for_date.year, for_date.month + 1)
  else (for_date.year, for_date.month)

/-- calendar.py `get_cell_date(day, target_month, target_year, start_day)`:
the actual (year, month, day) for a calendar cell of the pay-period view;
cells with `day ≥ start_day` belong to the month before `target_month`,
with January rolling back to December of the previous year. -/
def get_cell_date (day target_month target_year start_day : Nat) :
    Nat × Nat × Nat :=
  if day ≥ start_day then
    if target_month = 1 then (target_year - 1, 12, day)
    else (target_year, target_month - 1, day)
  else (target_year, target_month, day)

/-- The characters Python's `str.strip()` (and JS `String.prototype.trim`)
removes: Unicode whitespace, including the no-break space ` `. -/
def pyIsSpace (c : Char) : Bool :=
  c = ' ' || c = '\t' || c = '\n' || c = '\r' ||
  c.val = 0x0b || c.val = 0x0c ||
  c.val = 0x1c || c.val = 0x1d || c.val = 0x1e || c.val = 0x1f ||
  c.val = 0x85 || c.val = 0xa0 || c.val = 0x1680 ||
  (0x2000 ≤ c.val && c.val ≤ 0x200a) ||
  c.val = 0x2028 || c.val = 0x2029 || c.val = 0x202f ||
  c.val = 0x205f || c.val = 0x3000

/-- Python `str.strip()`: drop leading and trailing whitespace. -/
def pyStrip (s : String) : String :=
  ⟨((s.toList.dropWhile pyIsSpace).reverse.dropWhile pyIsSpace).reverse⟩

/-- Numeric value of an ASCII digit character (the digit class of the
JavaScript regexes below: JS `\d` is ASCII-only). -/
def digitVal (c : Char) : Nat := c.toNat - 48

/-- The start code points of the decimal-digit decades of Unicode category
Nd, as in the Python runtime's unicodedata tables: every Nd character lies
in one contiguous run `base .. base+9` whose position is its decimal value.
Python's `re` on a str pattern matches `\d` against every Nd character, and
`int()` parses it by this value. -/
def ndDecadeBases : List Nat :=
  [0x30, 0x660, 0x6f0, 0x7c0, 0x966, 0x9e6, 0xa66, 0xae6, 0xb66, 0xbe6,
   0xc66, 0xce6, 0xd66, 0xde6, 0xe50, 0xed0, 0xf20, 0x1040, 0x1090, 0x17e0,
   0x1810, 0x1946, 0x19d0, 0x1a80, 0x1a90, 0x1b50, 0x1bb0, 0x1c40, 0x1c50,
   0xa620, 0xa8d0, 0xa900, 0xa9d0, 0xa9f0, 0xaa50, 0xabf0, 0xff10, 0x104a0,
   0x10d30, 0x11066, 0x110f0, 0x11136, 0x111d0, 0x112f0, 0x11450, 0x114d0,
   0x11650, 0x116c0, 0x11730, 0x118e0, 0x11950, 0x11c50, 0x11d50, 0x11da0,
   0x16a60, 0x16ac0, 0x16b50, 0x1d7ce, 0x1d7d8, 0x1d7e2, 0x1d7ec, 0x1d7f6,
   0x1e140, 0x1e2f0, 0x1e950, 0x1fbf0]

/-- Python's `\d`-digit value of a character: its position in its Nd decade
when it is a Unicode decimal digit, else none. -/
def pyDigitVal? (c : Char) : Option Nat :=
  (ndDecadeBases.find? (fun b => b ≤ c.toNat && c.toNat ≤ b + 9)).map
    (fun b => c.toNat - b)

/-- The regex `^(\d{1,2}):(\d{2})$` of calendar.py `parse_time_string`,
applied to the (already stripped) character list: a 1-2 digit hour, a colon,
exactly two minute digits, where `\d` is any Unicode Nd digit and the
groups are read by `int()` over those digits' decimal values. -/
def matchHHMM : List Char → Option (Nat × Nat)
  | [h1, ':', m1, m2] =>
    match pyDigitVal? h1, pyDigitVal? m1, pyDigitVal? m2 with
    | some a, some b, some c => some (a, 10 * b + c)
    | _, _, _ => none
  | [h1, h2, ':', m1, m2] =>
    match pyDigitVal? h1, pyDigitVal? h2, pyDigitVal? m1, pyDigitVal? m2 with
    | some a1, some a2, some b, some c => some (10 * a1 + a2, 10 * b + c)
    | _, _, _, _ => none
  | _ => none

/-- calendar.py `parse_time_string(time_str)`: `None` for falsy input, else
match the strict `H:MM`/`HH:MM` regex on the stripped string and build
`datetime.time` — whose `ValueError` on an out-of-range hour or minute is
caught and turned into `None`. -/
def parse_time_string (time_str : String) : Option Time :=
  if time_str = "" then none
  else
    match matchHHMM (pyStrip time_str).toList with
    | some (h, m) => if h ≤ 23 && m ≤ 59 then some ⟨h, m⟩ else none
    | none => none

/-- The spec's strict time pattern over an already-stripped character list,
with the digit values it denotes: a 1-2 digit hour group, a colon, exactly
two minute digits, digits and values read by Python's Unicode digit
semantics (`pyDigitVal?`). -/
def strictTimePattern (cs : List Char) (h m : Nat) : Prop :=
  (∃ a b1 b2, cs = [a, ':', b1, b2] ∧ pyDigitVal? a = some h ∧
    ∃ v1 v2, pyDigitVal? b1 = some v1 ∧ pyDigitVal? b2 = some v2 ∧
      m = 10 * v1 + v2) ∨
  (∃ a1 a2 b1 b2, cs = [a1, a2, ':', b1, b2] ∧
    ∃ u1 u2 v1 v2, pyDigitVal? a1 = some u1 ∧ pyDigitVal? a2 = some u2 ∧
      pyDigitVal? b1 = some v1 ∧ pyDigitVal? b2 = some v2 ∧
      h = 10 * u1 + u2 ∧ m = 10 * v1 + v2)

/-- Python `needle in hay` on strings: substring containment (the needle is
a prefix of some suffix of the haystack). -/
def pySubstr (needle hay : String) : Bool :=
  hay.toList.tails.any (fun t => needle.toList.isPrefixOf t)

/-- vocabulary.py `StatusNotes`: the Hebrew status notes the calendar-cell
scanner recognises (declaration order matters: it is the scan order). -/
inductive StatusNotes
  | SICK
  | VACATION
  | VACATION_ALT
  | HOLIDAY
deriving DecidableEq

/-- The Hebrew string value of each `StatusNotes` member. -/
def StatusNotes.value : StatusNotes → String
  | .SICK => "מחלה"
  | .VACATION => "חופשה"
  | .VACATION_ALT => "חופש"
  | .HOLIDAY => "חג"

/-- vocabulary.py `StatusNotes._members()`: all members, in declaration order. -/
def StatusNotes.members : List StatusNotes :=
  [.SICK, .VACATION, .VACATION_ALT, .HOLIDAY]

/-- vocabulary.py `StatusNotes.canonical`: `_ALT` variants map to their base. -/
def StatusNotes.canonical : StatusNotes → StatusNotes
  | .VACATION_ALT => .VACATION
  | n => n

/-- vocabulary.py `StatusNotes.detect_in(text)`: the canonical form of the
first member whose value occurs in `text` as a substring, else `None`. -/
def StatusNotes.detect_in (text : String) : Option StatusNotes :=
  (StatusNotes.members.find? (fun note => pySubstr note.value text)).map
    StatusNotes.canonical

/-- vocabulary.py `DayTypes`: Hebrew day-type labels used only for
display translation (`to_english`), not by `StatusNotes.detect_in`. -/
inductive DayTypes
  | SICK
  | VACATION
  | HALF_VACATION
  | HOLIDAY
  | RESERVE
  | TRAINING
  | BEREAVEMENT
deriving DecidableEq

/-- The Hebrew string value of each `DayTypes` member. -/
def DayTypes.value : DayTypes → String
  | .SICK => "מחלה"
  | .VACATION => "חופשה"
  | .HALF_VACATION => "חצי חופשה"
  | .HOLIDAY => "חג"
  | .RESERVE => "מילואים"
  | .TRAINING => "השתלמות"
  | .BEREAVEMENT => "אבל"

/-- The keyword set C5 asserts for `detect_status`, as the spec words it:
sick, vacation, the alternate vacation spelling, holiday, half-vacation,
reserve-duty, training and bereavement (Hebrew values from the repository's
vocabulary). -/
def claimedStatusKeywords : List String :=
  [DayTypes.SICK.value, DayTypes.VACATION.value, StatusNotes.VACATION_ALT.value,
   DayTypes.HOLIDAY.value, DayTypes.HALF_VACATION.value, DayTypes.RESERVE.value,
   DayTypes.TRAINING.value, DayTypes.BEREAVEMENT.value]

/-- models.py `WorkType`: type of work location. -/
inductive WorkType
  | OFFICE
  | HOME
  | ABROAD
  | SKIP
deriving DecidableEq

/-- models.py `WorkType.hilan_code`: the vendor code used when filling
(`None` for SKIP). -/
def WorkType.hilan_code : WorkType → Option String
  | .OFFICE => some "103"
  | .HOME => some "101"
  | .ABROAD => some "104"
  | .SKIP => none

/-- models.py `WorkType.from_hilan_code`: dict lookup from a vendor code,
`None` for an unknown code. -/
def WorkType.from_hilan_code (code : String) : Option WorkType :=
  if code = "103" then some .OFFICE
  else if code = "101" then some .HOME
  else if code = "104" then some .ABROAD
  else none

/-- models.py `AttendanceRecord`: a single attendance record. -/
structure AttendanceRecord where
  date : Date
  entry_time : Option Time := none
  exit_time : Option Time := none
  work_type : Option WorkType := none
  note : Option String := none
deriving DecidableEq

/-- models.py `AttendanceRecord.has_existing_entry`. -/
def AttendanceRecord.has_existing_entry (r : AttendanceRecord) : Bool :=
  r.entry_time.isSome

/-- models.py `AttendanceRecord.has_existing_exit`. -/
def AttendanceRecord.has_existing_exit (r : AttendanceRecord) : Bool :=
  r.exit_time.isSome

/-- models.py `AttendanceRecord.is_complete`: both times recorded. -/
def AttendanceRecord.is_complete (r : AttendanceRecord) : Bool :=
  r.has_existing_entry && r.has_existing_exit

/-- Python truthiness of `record.note`: `None` and the empty string are
falsy; this is the test `fill_attendance`, `run_attendance_flow` and
`needs_filling` all perform (`if record.note`, `not self.note`). -/
def AttendanceRecord.note_truthy (r : AttendanceRecord) : Bool :=
  match r.note with
  | none => false
  | some s => s ≠ ""

/-- models.py `AttendanceRecord.needs_filling`: not complete and no
(truthy) note. -/
def AttendanceRecord.needs_filling (r : AttendanceRecord) : Bool :=
  !r.is_complete && !r.note_truthy

/-- Gregorian leap year, as Python's `calendar.isleap`. -/
def isLeapYear (y : Nat) : Bool :=
  (y % 4 == 0 && y % 100 != 0) || y % 400 == 0

/-- Days in a month of the proleptic Gregorian calendar. -/
def daysInMonth (y m : Nat) : Nat :=
  if m = 2 then (if isLeapYear y then 29 else 28)
  else if m = 4 ∨ m = 6 ∨ m = 9 ∨ m = 11 then 30
  else 31

/-- Days in the year `y` before month `m`. -/
def daysBeforeMonth (y m : Nat) : Nat :=
  ((List.range (m - 1)).map (fun i => daysInMonth y (i + 1))).sum

/-- Python `date.toordinal()`: day count with 0001-01-01 as day 1. -/
def toOrdinal (d : Date) : Nat :=
  365 * (d.year - 1) + (d.year - 1) / 4 - (d.year - 1) / 100
    + (d.year - 1) / 400 + daysBeforeMonth d.year d.month + d.day

/-- Python `date.weekday()`: Monday = 0 … Sunday = 6 (0001-01-01 was a
Monday). -/
def Date.weekday (d : Date) : Nat := (toOrdinal d + 6) % 7

/-- models.py `AttendancePattern`: default entry/exit times plus the
per-weekday work types (weekday numbers use Python's Monday = 0 … Sunday = 6;
the defaults are the model's Sunday-Thursday office pattern). -/
structure AttendancePattern where
  entry_time : Time := ⟨9, 0⟩
  exit_time : Time := ⟨18, 0⟩
  days : List (Nat × WorkType) :=
    [(6, .OFFICE), (0, .OFFICE), (1, .OFFICE), (2, .OFFICE), (3, .OFFICE)]

/-- Dict lookup in `AttendancePattern.days` by weekday number. -/
def AttendancePattern.lookup_day (p : AttendancePattern) (n : Nat) :
    Option WorkType :=
  (p.days.find? (fun e => e.1 == n)).map (fun e => e.2)

/-- models.py `AttendancePattern.work_days`: the weekday numbers whose work
type is not SKIP. -/
def AttendancePattern.work_days (p : AttendancePattern) : List Nat :=
  p.days.filterMap (fun e => if e.2 ≠ WorkType.SKIP then some e.1 else none)

/-- models.py `AttendancePattern.get_work_type(weekday)`: the work type for
a valid weekday number that is an active (non-SKIP) day, else `None`. -/
def AttendancePattern.get_work_type (p : AttendancePattern) (weekday : Nat) :
    Option WorkType :=
  if weekday < 7 then
    match p.lookup_day weekday with
    | some wt => if wt = .SKIP then none else some wt
    | none => none
  else none

/-- calendar.py `_DetailRow`: parsed payload for a day row of the detail
table (string fields default to empty, flags to false). -/
structure DetailRow where
  day : Nat
  month : Nat
  entry : String := ""
  exit : String := ""
  workTypeCode : String := ""
  missingEntry : Bool := false
  missingExit : Bool := false
deriving DecidableEq

/-- JS `a || b` on strings as the extraction script's `mergeRow` uses it:
the first operand when non-empty (truthy), else the second. -/
def jsOrS (a b : String) : String := if a ≠ "" then a else b

/-- calendar.py get_attendance detail-extraction script, `mergeRow`
(lines 424-435): keep the existing row's non-empty values, fill gaps from
the candidate, OR the missing flags; a first row merges with `None` to
itself. -/
def mergeRow (existing : Option DetailRow) (candidate : DetailRow) : DetailRow :=
  match existing with
  | none => candidate
  | some e =>
    { day := e.day
      month := e.month
      entry := jsOrS e.entry candidate.entry
      exit := jsOrS e.exit candidate.exit
      workTypeCode := jsOrS e.workTypeCode candidate.workTypeCode
      missingEntry := e.missingEntry || candidate.missingEntry
      missingExit := e.missingExit || candidate.missingExit }

/-- calendar.py `get_attendance` lines 687-702: a per-day fallback row is
merged into the bulk row set — each non-empty field of the fallback row
overwrites the existing row's field, empty fields leave it unchanged, and
the missing flags are OR'ed. -/
def mergeFallbackRow (existing row : DetailRow) : DetailRow :=
  let e1 := if row.entry ≠ "" then { existing with entry := row.entry }
            else existing
  let e2 := if row.exit ≠ "" then { e1 with exit := row.exit } else e1
  let e3 := if row.workTypeCode ≠ "" then
              { e2 with workTypeCode := row.workTypeCode }
            else e2
  { e3 with missingEntry := e3.missingEntry || row.missingEntry
            missingExit := e3.missingExit || row.missingExit }

/-- calendar.py `get_attendance` lines 706-717: apply one reconciled detail
row to its matching coarse record — entry/exit are overwritten only when the
row's non-empty string parses as a time; a non-empty work-type code assigns
`WorkType.from_hilan_code(code)` (which is `None` for an unknown code). -/
def applyDetailRow (record : AttendanceRecord) (data : DetailRow) :
    AttendanceRecord :=
  let record :=
    if data.entry ≠ "" then
      match parse_time_string data.entry with
      | some parsed_entry => { record with entry_time := some parsed_entry }
      | none => record
    else record
  let record :=
    if data.exit ≠ "" then
      match parse_time_string data.exit with
      | some parsed_exit => { record with exit_time := some parsed_exit }
      | none => record
    else record
  if data.workTypeCode ≠ "" then
    { record with work_type := WorkType.from_hilan_code data.workTypeCode }
  else record

/-- models.py `FillInstruction`: one planned write. -/
structure FillInstruction where
  type : WorkType
  date : Date
  entry_time : Option Time
  exit_time : Option Time
deriving DecidableEq

/-- The Python exception raised in the model: the only failure mode is the
`AttributeError` of an attribute access on a plain tuple. -/
inductive PyErr
  | attributeErr
deriving DecidableEq

/-- A value the caller passes to `fill_batch`: either a genuine
`FillInstruction`, or the plain 4-tuple
`(record.date, entry, exit, work_type)` that attendance.py
`fill_attendance` (lines 57-62) actually appends. -/
inductive FillArg
  | instr (i : FillInstruction)
  | tup (date : Date) (entry : Time) (leave : Time) (work_type : WorkType)
deriving DecidableEq

/-- `instruction.date`: succeeds on a `FillInstruction`, raises
`AttributeError` on a tuple. -/
def FillArg.getDate : FillArg → Except PyErr Date
  | .instr i => .ok i.date
  | .tup .. => .error .attributeErr

/-- The attribute accesses of `fill_batch` step 4 (`instruction.type`,
`.date`, `.entry_time`, `.exit_time`): all succeed on a `FillInstruction`;
on a tuple the first one raises `AttributeError`. -/
def FillArg.toInstr : FillArg → Except PyErr FillInstruction
  | .instr i => .ok i
  | .tup .. => .error .attributeErr

/-- The attribute accesses of the dry-run report loop
(`instruction.date.strftime`, `.type.label`, …): they succeed on a
`FillInstruction` and raise `AttributeError` on a tuple, outside any
try/except. -/
def FillArg.dryLine : FillArg → Except PyErr Unit
  | .instr _ => .ok ()
  | .tup .. => .error .attributeErr

/-- Left-to-right effectful map in `Except`, as a Python loop that may
raise: stop at the first error. -/
def mapMExcept (f : α → Except PyErr β) : List α → Except PyErr (List β)
  | [] => .ok []
  | a :: t =>
    match f a with
    | .error e => .error e
    | .ok b =>
      match mapMExcept f t with
      | .error e => .error e
      | .ok bs => .ok (b :: bs)

/-- One browser interaction of `fill_batch`, for the interaction trace. -/
inductive Action
  | clickClear
  | evalClickDays (days : List Nat)
  | clickSelectedDays
  | clickOk
  | retryClickDay (day : Nat)
  | evalFillRows
  | clickSave
  | evalAltSave
  | waitTimeout
  | waitLoad
deriving DecidableEq

/-- What the fill script of `fill_batch` step 5 would observe about one
`ReportDate` cell of the detail table. -/
structure RowEnv where
  hasRowIndex : Bool
  dateText : String
  hasEntryInput : Bool
  hasExitInput : Bool
  hasSymbolSelect : Bool

/-- The browser's state as `fill_batch` observes it: button presence and
visibility, which day cells each click pass can click, whether the portal's
"no selection" notice shows after the first and after the retried reveal,
and the detail rows the fill script sees. -/
structure Env where
  clearBtnPresent : Bool
  clearBtnVisible : Bool
  jsClick : Nat → Bool
  selectedBtnPresent : Bool
  popupFirst : Bool
  okBtnVisible : Bool
  retryClick : Nat → Bool
  popupSecond : Bool
  detailRows : List RowEnv
  saveBtnVisible : Bool
  altSavePresent : Bool

/-- Python `list(dict.fromkeys(...))`: de-duplicate keeping first
occurrences. -/
def dedupFirst (l : List Nat) : List Nat :=
  l.foldl (fun acc d => if d ∈ acc then acc else acc ++ [d]) []

/-- Python `f'{n:02d}'` / JS `padStart(2, '0')` for the day/month key. -/
def pad2 (n : Nat) : String :=
  if n < 10 then "0" ++ toString n else toString n

/-- Python `t.strftime('%H:%M')`. -/
def fmtTime (t : Time) : String := pad2 t.hour ++ ":" ++ pad2 t.minute

/-- The fill data of one `fill_map` entry: entry/exit strings (`None` means
"keep whatever the portal has") and the vendor work-type code. -/
structure FillData where
  entry : Option String
  leave : Option String
  workCode : String
deriving DecidableEq

/-- calendar.py `fill_batch` step 4 (lines 906-919): the dict from
zero-padded `day/month` keys to fill data; instructions with no vendor code
are skipped, and a later instruction overwrites an earlier one with the same
key (dict assignment). -/
def buildFillMapPure (l : List FillInstruction) : List (String × FillData) :=
  l.foldl
    (fun acc i =>
      match i.type.hilan_code with
      | none => acc
      | some code =>
        acc ++ [(pad2 i.date.day ++ "/" ++ pad2 i.date.month,
                 ⟨i.entry_time.map fmtTime, i.exit_time.map fmtTime, code⟩)])
    []

/-- Dict lookup: the value of the last insertion with the given key. -/
def mapLookup (m : List (String × FillData)) (k : String) : Option FillData :=
  (m.reverse.find? (fun e => e.1 == k)).map (fun e => e.2)

/-- The JS regex `(\d{1,2})\/(\d{1,2})` matched at the head of a character
list: a greedy 1-2 digit group, a slash, a greedy 1-2 digit group. -/
def headMatchDM (cs : List Char) : Option (Nat × Nat) :=
  let tryMonth : List Char → Option Nat := fun rest =>
    match rest with
    | m1 :: m2 :: _ =>
      if m1.isDigit then
        some (if m2.isDigit then 10 * digitVal m1 + digitVal m2
              else digitVal m1)
      else none
    | [m1] => if m1.isDigit then some (digitVal m1) else none
    | [] => none
  match cs with
  | c1 :: rest1 =>
    if c1.isDigit then
      match rest1 with
      | c2 :: rest2 =>
        if c2.isDigit then
          match rest2 with
          | '/' :: rest3 =>
            (tryMonth rest3).map (fun m => (10 * digitVal c1 + digitVal c2, m))
          | _ => none
        else if c2 = '/' then (tryMonth rest2).map (fun m => (digitVal c1, m))
        else none
      | [] => none
    else none
  | [] => none

/-- The JS regex search `text.match(/(\d{1,2})\/(\d{1,2})/)`: the first
position where the pattern matches. -/
def searchDM : List Char → Option (Nat × Nat)
  | [] => none
  | c :: rest => headMatchDM (c :: rest) <|> searchDM rest

/-- calendar.py `fill_batch` fill script `normalizeDate`: the first
`day/month` group of the text, zero-padded. -/
def normalizeDate (dateText : String) : Option String :=
  (searchDM dateText.toList).map (fun dm => pad2 dm.1 ++ "/" ++ pad2 dm.2)

/-- The structured result of the fill script (calendar.py `_FillBatchResult`,
fields the Python caller reads). -/
structure JsFillResult where
  success : Bool
  filled : Nat
  matched : Nat
deriving DecidableEq

/-- calendar.py `fill_batch` step 5 fill script (lines 922-1024): walk every
`ReportDate` cell; skip cells without a row index or parsable date or with a
date outside the fill map; a matched row counts as filled when at least one
control (entry input with a value to write, exit input with a value to
write, or work-type select) was written. -/
def fillRowsJs (rows : List RowEnv) (m : List (String × FillData)) :
    JsFillResult :=
  if rows.isEmpty then ⟨false, 0, 0⟩
  else
    let counts := rows.foldl
      (fun (acc : Nat × Nat) row =>
        if !row.hasRowIndex then acc
        else
          match normalizeDate (pyStrip row.dateText) with
          | none => acc
          | some key =>
            match mapLookup m key with
            | none => acc
            | some fd =>
              let wrote := (row.hasEntryInput && fd.entry.isSome)
                || (row.hasExitInput && fd.leave.isSome)
                || row.hasSymbolSelect
              (if wrote then acc.1 + 1 else acc.1, acc.2 + 1))
      (0, 0)
    ⟨decide (0 < counts.1), counts.1, counts.2⟩

/-- The value `fill_batch` returns together with the browser interactions a
normal return performed. The catch-all handler of lines 1086-1088 discards
the in-flight trace, so theorems about a caught-exception path speak only of
the returned counts. -/
structure BatchOut where
  result : Nat × Nat
  trace : List Action
deriving DecidableEq

/-- calendar.py `fill_batch` steps 4-6 (build the fill map, run the fill
script, save): the pure continuation after selection has succeeded, given
the trace so far. `No detail rows found` or no filled row or no save control
yields zero filled and every instruction failed. -/
def fillAndSaveCore (env : Env) (l : List FillInstruction) (tr : List Action) :
    BatchOut :=
  let m := buildFillMapPure l
  let tr1 := tr ++ [Action.evalFillRows]
  let res := fillRowsJs env.detailRows m
  if !res.success then ⟨(0, l.length), tr1⟩
  else
    let tr2 := tr1 ++ [Action.waitTimeout]
    if env.saveBtnVisible then
      ⟨(res.filled, l.length - res.filled),
       tr2 ++ [Action.clickSave, Action.waitLoad, Action.waitTimeout]⟩
    else
      let tr3 := tr2 ++ [Action.evalAltSave]
      if env.altSavePresent then
        ⟨(res.filled, l.length - res.filled),
         tr3 ++ [Action.waitLoad, Action.waitTimeout]⟩
      else ⟨(0, l.length), tr3⟩

/-- Steps 4-6 over the raw arguments: the attribute accesses of step 4 may
raise on a tuple. -/
def fillAndSave (env : Env) (insts : List FillArg) (tr : List Action) :
    Except PyErr BatchOut :=
  match mapMExcept FillArg.toInstr insts with
  | .error e => .error e
  | .ok l => .ok (fillAndSaveCore env l tr)

/-- calendar.py `fill_batch` try block (lines 776-1084): clear the
selection, click every distinct day number, reveal the selected days — with
one retried selection pass if the portal shows the "no selection" notice,
terminal on a second notice — then fill and save. -/
def fillBatchTry (env : Env) (insts : List FillArg) : Except PyErr BatchOut :=
  let tr0 := if env.clearBtnPresent && env.clearBtnVisible then
               [Action.clickClear, Action.waitTimeout]
             else []
  match mapMExcept FillArg.getDate insts with
  | .error e => .error e
  | .ok dates =>
    let day_numbers := dedupFirst (dates.map (fun d => d.day))
    let tr1 := tr0 ++ [Action.evalClickDays day_numbers]
    let clickedDays := day_numbers.filter env.jsClick
    if clickedDays.isEmpty then .ok ⟨(0, insts.length), tr1⟩
    else
      let tr2 := tr1 ++ [Action.waitTimeout]
      if env.selectedBtnPresent then
        let tr3 := tr2 ++ [Action.clickSelectedDays, Action.waitTimeout]
        if env.popupFirst then
          let tr4 := tr3 ++ (if env.okBtnVisible then
                               [Action.clickOk, Action.waitTimeout]
                             else [])
          let tr5 := tr4 ++ (if env.clearBtnPresent && env.clearBtnVisible then
                               [Action.clickClear, Action.waitTimeout]
                             else [])
          let retryClicked := day_numbers.filter env.retryClick
          let tr6 := tr5 ++ retryClicked.map Action.retryClickDay
          if retryClicked.isEmpty then .ok ⟨(0, insts.length), tr6⟩
          else
            let tr7 := tr6 ++ [Action.clickSelectedDays, Action.waitTimeout]
            if env.popupSecond then .ok ⟨(0, insts.length), tr7⟩
            else fillAndSave env insts (tr7 ++ [Action.waitTimeout])
        else fillAndSave env insts (tr3 ++ [Action.waitTimeout])
      else fillAndSave env insts tr2

/-- calendar.py `CalendarPage.fill_batch(records_to_fill, dry_run)`: an
empty batch returns (0, 0) at once; a dry run only formats its report and
returns (N, 0); otherwise the try block runs with its catch-all handler
turning any exception into (0, N). -/
def fill_batch (env : Env) (records_to_fill : List FillArg) (dry_run : Bool) :
    Except PyErr BatchOut :=
  if records_to_fill.isEmpty then .ok ⟨(0, 0), []⟩
  else if dry_run then
    match mapMExcept FillArg.dryLine records_to_fill with
    | .ok _ => .ok ⟨(records_to_fill.length, 0), []⟩
    | .error e => .error e
  else
    match fillBatchTry env records_to_fill with
    | .ok out => .ok out
    | .error _ => .ok ⟨(0, records_to_fill.length), []⟩

/-- attendance.py `fill_attendance` lines 38-54: whether one record is
selected for filling — inside the requested dates (when that list is
truthy), on a work day of the pattern, not already complete, and without a
(truthy) status note. -/
def fillSelects (pattern : AttendancePattern) (only_dates : Option (List Date))
    (r : AttendanceRecord) : Bool :=
  (match only_dates with
   | some ds => ds.isEmpty || ds.contains r.date
   | none => true) &&
  pattern.work_days.contains r.date.weekday &&
  !r.is_complete && !r.note_truthy

/-- attendance.py `fill_attendance` lines 57-62: the plain 4-tuple appended
for a selected record — its date, its existing entry/exit time or the
pattern default, and the pattern's work type for the weekday or OFFICE. -/
def fillTupleOf (pattern : AttendancePattern) (r : AttendanceRecord) :
    FillArg :=
  .tup r.date
    (match r.entry_time with | some t => t | none => pattern.entry_time)
    (match r.exit_time with | some t => t | none => pattern.exit_time)
    ((pattern.get_work_type r.date.weekday).getD .OFFICE)

/-- attendance.py `fill_attendance`: collect the records to fill as plain
tuples and hand them to `fill_batch` in one batch; with nothing to fill the
result is (0, 0). -/
def fill_attendance (env : Env) (records : List AttendanceRecord)
    (pattern : AttendancePattern) (dry_run : Bool)
    (only_dates : Option (List Date)) : Except PyErr (Nat × Nat) :=
  let records_to_fill :=
    (records.filter (fillSelects pattern only_dates)).map (fillTupleOf pattern)
  if records_to_fill.isEmpty then .ok (0, 0)
  else (fill_batch env records_to_fill dry_run).map (fun out => out.result)

/-- attendance.py `run_attendance_flow` lines 149-153: the `to_fill`
filter — work day, not complete, no (truthy) note. -/
def toFillSelects (pattern : AttendancePattern) (r : AttendanceRecord) : Bool :=
  pattern.work_days.contains r.date.weekday && !r.is_complete && !r.note_truthy

/-- The distinct day-of-month values of a batch of instructions, in
first-occurrence order (fill_batch step 2). -/
def instructionDays (l : List FillInstruction) : List Nat :=
  dedupFirst (l.map (fun i => i.date.day))

/-- The browser interactions of a non-dry batch run, from the initial clear
up to and including the retried reveal attempt, when the first reveal raised
the "no selection" notice. -/
def retryTrace (env : Env) (days : List Nat) : List Action :=
  (if env.clearBtnPresent && env.clearBtnVisible then
     [Action.clickClear, Action.waitTimeout] else []) ++
  [Action.evalClickDays days] ++ [Action.waitTimeout] ++
  [Action.clickSelectedDays, Action.waitTimeout] ++
  (if env.okBtnVisible then [Action.clickOk, Action.waitTimeout] else []) ++
  (if env.clearBtnPresent && env.clearBtnVisible then
     [Action.clickClear, Action.waitTimeout] else []) ++
  (days.filter env.retryClick).map Action.retryClickDay ++
  [Action.clickSelectedDays, Action.waitTimeout]

/-- A fully inert browser environment, for concrete runs. -/
def envNothing : Env :=
  { clearBtnPresent := false
    clearBtnVisible := false
    jsClick := fun _ => false
    selectedBtnPresent := false
    popupFirst := false
    okBtnVisible := false
    retryClick := fun _ => false
    popupSecond := false
    detailRows := []
    saveBtnVisible := false
    altSavePresent := false }

/-- A browser environment where every click lands, the reveal control
exists, and the "no selection" notice shows after both reveal attempts. -/
def envRetryTwice : Env :=
  { clearBtnPresent := true
    clearBtnVisible := true
    jsClick := fun _ => true
    selectedBtnPresent := true
    popupFirst := true
    okBtnVisible := true
    retryClick := fun _ => true
    popupSecond := true
    detailRows := []
    saveBtnVisible := true
    altSavePresent := false }

/-- A concrete coarse record: Sunday 2025-01-05, nothing recorded. -/
def recSunday : AttendanceRecord := { date := ⟨2025, 1, 5⟩ }

/-- A concrete fill instruction for Sunday 2025-01-05. -/
def instrSunday : FillInstruction :=
  ⟨.OFFICE, ⟨2025, 1, 5⟩, some ⟨9, 0⟩, some ⟨18, 0⟩⟩

/-- C2: for every calendar date with a valid month and every fixed period
start day, `get_pay_period` to obtain the period (year, month) and then
`get_cell_date` on the same day-of-month recovers exactly the original
(year, month, day), the December-to-January rollover included. -/
theorem get_pay_period_get_cell_date_roundtrip (d : Date) (s : Nat)
    (hm1 : 1 ≤ d.month) (hm2 : d.month ≤ 12) :
    get_cell_date d.day (get_pay_period d s).2 (get_pay_period d s).1 s
      = (d.year, d.month, d.day) := by
  rcases d with ⟨y, m, dd⟩
  simp only at hm1 hm2
  by_cases h : dd ≥ s
  · by_cases hm : m = 12
    · subst hm
      simp [get_pay_period, get_cell_date, h]
    · have h1 : ¬ (m + 1 = 1) := by omega
      have h2 : m + 1 - 1 = m := by omega
      simp [get_pay_period, get_cell_date, h, hm, h1, h2]
  · simp [get_pay_period, get_cell_date, h]

/-- C2 witness: with start day 20, 2025-12-21 maps to period (2026, 1) and
cell 21 of that period maps back to 2025-12-21. -/
theorem get_pay_period_get_cell_date_roundtrip_witness :
    get_pay_period ⟨2025, 12, 21⟩ 20 = (2026, 1) ∧
    get_cell_date 21 (get_pay_period ⟨2025, 12, 21⟩ 20).2
        (get_pay_period ⟨2025, 12, 21⟩ 20).1 20 = (2025, 12, 21) :=
  ⟨by decide,
   get_pay_period_get_cell_date_roundtrip ⟨2025, 12, 21⟩ 20 (by decide)
     (by decide)⟩

/-- C10: `fill_batch` with an empty instruction list returns (0, 0) with an
empty browser-interaction trace — no query, click, evaluate or wait — for
every environment and dry-run flag. -/
theorem fill_batch_empty_no_contact (env : Env) (dry_run : Bool) :
    fill_batch env [] dry_run = .ok ⟨(0, 0), []⟩ := rfl

theorem mapMExcept_dryLine_map_instr (l : List FillInstruction) :
    mapMExcept FillArg.dryLine (l.map FillArg.instr)
      = .ok (l.map fun _ => ()) := by
  induction l with
  | nil => rfl
  | cons a t ih => simp [mapMExcept, ih, FillArg.dryLine]

theorem mapMExcept_getDate_map_instr (l : List FillInstruction) :
    mapMExcept FillArg.getDate (l.map FillArg.instr)
      = .ok (l.map fun i => i.date) := by
  induction l with
  | nil => rfl
  | cons a t ih => simp [mapMExcept, ih, FillArg.getDate]

theorem mapMExcept_toInstr_map_instr (l : List FillInstruction) :
    mapMExcept FillArg.toInstr (l.map FillArg.instr) = .ok l := by
  induction l with
  | nil => rfl
  | cons a t ih => simp [mapMExcept, ih, FillArg.toInstr]

/-- C9: a dry-run `fill_batch` over any N genuine fill instructions returns
(N, 0) with an empty browser-interaction trace: it short-circuits before
step 1 and performs no clear, click, reveal, write or save. -/
theorem fill_batch_dry_run_no_contact (env : Env) (l : List FillInstruction) :
    fill_batch env (l.map FillArg.instr) true = .ok ⟨(l.length, 0), []⟩ := by
  cases l with
  | nil => rfl
  | cons a t =>
    have h := mapMExcept_dryLine_map_instr (a :: t)
    simp only [List.map_cons] at h
    simp [fill_batch, h]

theorem pyDigitVal_le_nine {c : Char} {v : Nat}
    (h : pyDigitVal? c = some v) : v ≤ 9 := by
  unfold pyDigitVal? at h
  cases hf : ndDecadeBases.find? (fun b => b ≤ c.toNat && c.toNat ≤ b + 9) with
  | none => rw [hf] at h; exact absurd h (by simp)
  | some b =>
    rw [hf] at h
    simp only [Option.map_some', Option.some.injEq] at h
    have hp := List.find?_some hf
    simp only [Bool.and_eq_true, decide_eq_true_eq] at hp
    omega

theorem matchHHMM_eq_some_iff (cs : List Char) (h m : Nat) :
    matchHHMM cs = some (h, m) ↔ strictTimePattern cs h m := by
  constructor
  · intro hp
    unfold matchHHMM at hp
    split at hp
    · rename_i h1 m1 m2
      split at hp
      · rename_i a b c hda hdb hdc
        injection hp with hp
        injection hp with hph hpm
        subst hph
        subst hpm
        exact Or.inl ⟨h1, m1, m2, rfl, hda, b, c, hdb, hdc, rfl⟩
      · exact absurd hp (by simp)
    · rename_i h1 h2 m1 m2
      split at hp
      · rename_i a1 a2 b c hda1 hda2 hdb hdc
        injection hp with hp
        injection hp with hph hpm
        subst hph
        subst hpm
        exact Or.inr ⟨h1, h2, m1, m2, rfl, a1, a2, b, c, hda1, hda2, hdb, hdc,
          rfl, rfl⟩
      · exact absurd hp (by simp)
    · exact absurd hp (by simp)
  · intro hs
    rcases hs with ⟨a, b1, b2, hcs, ha, v1, v2, hb1, hb2, hm⟩ |
      ⟨a1, a2, b1, b2, hcs, u1, u2, v1, v2, ha1, ha2, hb1, hb2, hh, hm⟩
    · subst hcs
      subst hm
      simp [matchHHMM, ha, hb1, hb2]
    · subst hcs
      subst hh
      subst hm
      simp [matchHHMM, ha1, ha2, hb1, hb2]

theorem parse_time_string_eq_some_iff (s : String) (h m : Nat) :
    parse_time_string s = some ⟨h, m⟩ ↔
      h ≤ 23 ∧ m ≤ 59 ∧ strictTimePattern (pyStrip s).toList h m := by
  constructor
  · intro hp
    by_cases hs : s = ""
    · simp [parse_time_string, hs] at hp
    · simp only [parse_time_string, hs, if_false] at hp
      split at hp
      · rename_i h0 m0 heq
        split at hp
        · rename_i hrange
          injection hp with hp
          injection hp with hph hpm
          subst hph
          subst hpm
          simp only [Bool.and_eq_true, decide_eq_true_eq] at hrange
          exact ⟨hrange.1, hrange.2, (matchHHMM_eq_some_iff _ h0 m0).mp heq⟩
        · exact absurd hp (by simp)
      · exact absurd hp (by simp)
  · rintro ⟨hh, hm, hshape⟩
    have hs : s ≠ "" := by
      intro h0
      subst h0
      have hnil : (pyStrip "").toList = ([] : List Char) := rfl
      rcases hshape with ⟨a, b1, b2, hcs, _⟩ | ⟨a1, a2, b1, b2, hcs, _⟩ <;>
        · rw [hnil] at hcs
          exact absurd hcs (by simp)
    simp only [parse_time_string, hs, if_false]
    have hmk : matchHHMM (pyStrip s).toList = some (h, m) :=
      (matchHHMM_eq_some_iff _ h m).mpr hshape
    rw [hmk]
    simp [hh, hm]

/-- C6: `parse_time_string` yields a time exactly when the stripped content
is a strict `H:MM` or `HH:MM` pattern (1-2 digit hour, exactly 2-digit
minute, digits being any Unicode decimal digits, as Python's `\d` and
`int()` read them) whose hour and minute are in range; placeholders, empty
strings, no-break-space-only strings, multi-token strings and out-of-range
values all yield none, and the function is total (the out-of-range
ValueError is caught, never propagated). -/
theorem parse_time_string_strict (s : String) (h m : Nat) :
    (parse_time_string s = some ⟨h, m⟩ ↔
      h ≤ 23 ∧ m ≤ 59 ∧ strictTimePattern (pyStrip s).toList h m) ∧
    parse_time_string "9:00" = some ⟨9, 0⟩ ∧
    parse_time_string "\u0669:\u0660\u0660" = some ⟨9, 0⟩ ∧
    parse_time_string "--:--" = none ∧
    parse_time_string "25:00" = none ∧
    parse_time_string "25:61" = none ∧
    parse_time_string "" = none ∧
    parse_time_string "\u00A0" = none ∧
    parse_time_string "9:00 10:00" = none :=
  ⟨parse_time_string_eq_some_iff s h m, by decide, by decide, by decide,
   by decide, by decide, by decide, by decide, by decide⟩


/-- C5 counterexample: the reserve-duty keyword belongs to the set the claim
asserts, yet `StatusNotes.detect_in` returns none on the exact reserve-duty
label (and likewise on the training and bereavement labels): the scanner
only knows the four `StatusNotes` values. -/
theorem detect_in_misses_reserve_duty :
    StatusNotes.detect_in (DayTypes.RESERVE.value) = none ∧
    DayTypes.RESERVE.value ∈ claimedStatusKeywords ∧
    pySubstr DayTypes.RESERVE.value DayTypes.RESERVE.value = true ∧
    StatusNotes.detect_in (DayTypes.TRAINING.value) = none ∧
    StatusNotes.detect_in (DayTypes.BEREAVEMENT.value) = none := by
  refine ⟨by decide, by decide, by decide, by decide, by decide⟩

/-- C5 amended: `detect_in` scans only the fixed four-keyword set sick,
vacation, alternate-spelling vacation (normalized to vacation) and holiday,
by substring containment in declaration order, returning the first canonical
match and none exactly when none of those four keywords occurs; half-vacation,
reserve-duty, training and bereavement are not part of the detected set. -/
theorem detect_in_characterization (t : String) :
    (StatusNotes.detect_in t = none ↔
      pySubstr "מחלה" t = false ∧ pySubstr "חופשה" t = false ∧
      pySubstr "חופש" t = false ∧ pySubstr "חג" t = false) ∧
    (StatusNotes.detect_in t ≠ some .VACATION_ALT) ∧
    (pySubstr "מחלה" t = true → StatusNotes.detect_in t = some .SICK) ∧
    (pySubstr "מחלה" t = false → pySubstr "חופשה" t = true →
      StatusNotes.detect_in t = some .VACATION) ∧
    (pySubstr "מחלה" t = false → pySubstr "חופשה" t = false →
      pySubstr "חופש" t = true → StatusNotes.detect_in t = some .VACATION) ∧
    (pySubstr "מחלה" t = false → pySubstr "חופשה" t = false →
      pySubstr "חופש" t = false → pySubstr "חג" t = true →
      StatusNotes.detect_in t = some .HOLIDAY) := by
  by_cases h1 : pySubstr "מחלה" t <;>
    by_cases h2 : pySubstr "חופשה" t <;>
      by_cases h3 : pySubstr "חופש" t <;>
        by_cases h4 : pySubstr "חג" t <;>
          simp_all [StatusNotes.detect_in, StatusNotes.members, List.find?,
            StatusNotes.value, StatusNotes.canonical]

/-- C4 counterexample: a detail row carrying the non-empty unknown work-type
code 999 does not leave the record's work type unchanged — the apply step
assigns the lookup's result, which is none, clearing the previously set
OFFICE. -/
theorem applyDetailRow_unknown_code_clears_work_type :
    (applyDetailRow { date := ⟨2025, 1, 5⟩, work_type := some WorkType.OFFICE }
        { day := 5, month := 1, workTypeCode := "999" }).work_type = none ∧
    WorkType.from_hilan_code "999" = none ∧
    ({ date := ⟨2025, 1, 5⟩, work_type := some WorkType.OFFICE } :
        AttendanceRecord).work_type = some WorkType.OFFICE := by decide

/-- C4 amended: applying a reconciled detail row overwrites entry/exit only
when the row's string parses as a valid time (never with empty or unparsable
values), while the work type is reassigned whenever the row carries a
non-empty code — to the WorkType that code maps to, which is none (clearing
the field) for a code outside the known set. -/
theorem applyDetailRow_overwrite_rules (record : AttendanceRecord)
    (data : DetailRow) :
    ((parse_time_string data.entry = none →
        (applyDetailRow record data).entry_time = record.entry_time) ∧
     (∀ t, parse_time_string data.entry = some t →
        (applyDetailRow record data).entry_time = some t)) ∧
    ((parse_time_string data.exit = none →
        (applyDetailRow record data).exit_time = record.exit_time) ∧
     (∀ t, parse_time_string data.exit = some t →
        (applyDetailRow record data).exit_time = some t)) ∧
    ((data.workTypeCode = "" →
        (applyDetailRow record data).work_type = record.work_type) ∧
     (data.workTypeCode ≠ "" →
        (applyDetailRow record data).work_type
          = WorkType.from_hilan_code data.workTypeCode)) := by
  rcases hpe : parse_time_string data.entry with _ | t1 <;>
    rcases hpx : parse_time_string data.exit with _ | t2 <;>
      by_cases he : data.entry = "" <;> by_cases hx : data.exit = "" <;>
        by_cases hw : data.workTypeCode = "" <;>
          simp_all [applyDetailRow, show parse_time_string "" = none from rfl]

/-- C7 counterexample: a record whose note is the non-null empty string is
still a fill target — Python tests the note's truthiness, not nullness, so
`needs_filling` is true and both selection filters keep the record. -/
theorem empty_string_note_is_fill_target :
    ({ date := ⟨2025, 1, 5⟩, note := some "" } : AttendanceRecord).note ≠ none ∧
    ({ date := ⟨2025, 1, 5⟩, note := some "" } :
        AttendanceRecord).needs_filling = true ∧
    toFillSelects {} { date := ⟨2025, 1, 5⟩, note := some "" } = true ∧
    fillSelects {} none { date := ⟨2025, 1, 5⟩, note := some "" } = true := by
  decide

/-- C7 amended: every record whose note is non-null and non-empty is never a
fill target, regardless of its entry/exit state: `needs_filling` is false
and both the `fill_attendance` selection and the flow's `to_fill` filter
exclude it, for every pattern and requested-dates list. -/
theorem note_nonempty_never_fill_target (r : AttendanceRecord) (s : String)
    (h1 : r.note = some s) (h2 : s ≠ "") :
    r.needs_filling = false ∧
    (∀ pattern only_dates, fillSelects pattern only_dates r = false) ∧
    (∀ pattern, toFillSelects pattern r = false) := by
  have ht : r.note_truthy = true := by
    simp [AttendanceRecord.note_truthy, h1, h2]
  exact ⟨by simp [AttendanceRecord.needs_filling, ht],
    fun pattern only_dates => by simp [fillSelects, ht],
    fun pattern => by simp [toFillSelects, ht]⟩

/-- C7 witness: a concrete record with a sick note is excluded everywhere. -/
theorem note_nonempty_never_fill_target_witness :
    ({ date := ⟨2025, 1, 5⟩, note := some "מחלה" } :
        AttendanceRecord).needs_filling = false ∧
    (∀ pattern only_dates, fillSelects pattern only_dates
        { date := ⟨2025, 1, 5⟩, note := some "מחלה" } = false) ∧
    (∀ pattern, toFillSelects pattern
        { date := ⟨2025, 1, 5⟩, note := some "מחלה" } = false) :=
  note_nonempty_never_fill_target _ "מחלה" rfl (by decide)

/-- C8 counterexample: the per-day fallback merge of `get_attendance` is not
first-non-empty-wins — a later row's non-empty entry 10:00 overwrites the
existing row's non-empty entry 09:00. -/
theorem mergeFallbackRow_overwrites_nonempty :
    (mergeFallbackRow { day := 5, month := 1, entry := "09:00" }
        { day := 5, month := 1, entry := "10:00" }).entry = "10:00" ∧
    ({ day := 5, month := 1, entry := "09:00" } : DetailRow).entry = "09:00" := by
  decide

/-- C8 amended: the detail-table script's `mergeRow` is first-non-empty-wins
per field with missing flags OR'ed, so an entry-only and an exit-only row
merge with both set and an all-empty row changes no populated field; the
per-day fallback merge instead lets a later non-empty value overwrite an
earlier one, while still never overwriting a populated field with empty and
still OR-ing the missing flags. -/
theorem merge_rules (e c row : DetailRow) :
    (mergeRow none c = c) ∧
    (e.entry ≠ "" → (mergeRow (some e) c).entry = e.entry) ∧
    (e.entry = "" → (mergeRow (some e) c).entry = c.entry) ∧
    (e.exit ≠ "" → (mergeRow (some e) c).exit = e.exit) ∧
    (e.exit = "" → (mergeRow (some e) c).exit = c.exit) ∧
    (e.workTypeCode ≠ "" →
      (mergeRow (some e) c).workTypeCode = e.workTypeCode) ∧
    (e.workTypeCode = "" →
      (mergeRow (some e) c).workTypeCode = c.workTypeCode) ∧
    ((mergeRow (some e) c).missingEntry = (e.missingEntry || c.missingEntry)) ∧
    ((mergeRow (some e) c).missingExit = (e.missingExit || c.missingExit)) ∧
    (e.entry ≠ "" → e.exit = "" → c.entry = "" → c.exit ≠ "" →
      (mergeRow (some e) c).entry = e.entry ∧
      (mergeRow (some e) c).exit = c.exit) ∧
    (row.entry ≠ "" → (mergeFallbackRow e row).entry = row.entry) ∧
    (row.entry = "" → (mergeFallbackRow e row).entry = e.entry) ∧
    (row.exit ≠ "" → (mergeFallbackRow e row).exit = row.exit) ∧
    (row.exit = "" → (mergeFallbackRow e row).exit = e.exit) ∧
    (row.workTypeCode ≠ "" →
      (mergeFallbackRow e row).workTypeCode = row.workTypeCode) ∧
    (row.workTypeCode = "" →
      (mergeFallbackRow e row).workTypeCode = e.workTypeCode) ∧
    ((mergeFallbackRow e row).missingEntry
      = (e.missingEntry || row.missingEntry)) ∧
    ((mergeFallbackRow e row).missingExit
      = (e.missingExit || row.missingExit)) := by
  by_cases h1 : e.entry = "" <;> by_cases h2 : e.exit = "" <;>
    by_cases h3 : e.workTypeCode = "" <;> by_cases h4 : row.entry = "" <;>
      by_cases h5 : row.exit = "" <;> by_cases h6 : row.workTypeCode = "" <;>
        simp_all [mergeRow, mergeFallbackRow, jsOrS]

theorem fillAndSave_map_instr (env : Env) (l : List FillInstruction)
    (tr : List Action) :
    fillAndSave env (l.map FillArg.instr) tr
      = .ok (fillAndSaveCore env l tr) := by
  unfold fillAndSave
  rw [mapMExcept_toInstr_map_instr]

theorem countP_selectedDays_map_retry (rl : List Nat) :
    (rl.map Action.retryClickDay).countP
      (fun a => a = Action.clickSelectedDays) = 0 := by
  induction rl with
  | nil => rfl
  | cons a t ih => simp [List.countP_cons, ih]

theorem retryTrace_countP (env : Env) (days : List Nat) :
    (retryTrace env days).countP (fun a => a = Action.clickSelectedDays) = 2 := by
  unfold retryTrace
  by_cases h1 : (env.clearBtnPresent && env.clearBtnVisible) = true <;>
    by_cases h2 : env.okBtnVisible = true <;>
      simp [h1, h2, List.countP_append, List.countP_cons, List.countP_nil,
        countP_selectedDays_map_retry]

theorem fillAndSaveCore_trace_countP (env : Env) (l : List FillInstruction)
    (tr : List Action) :
    (fillAndSaveCore env l tr).trace.countP
        (fun a => a = Action.clickSelectedDays)
      = tr.countP (fun a => a = Action.clickSelectedDays) := by
  unfold fillAndSaveCore
  by_cases h1 : (fillRowsJs env.detailRows (buildFillMapPure l)).success = true <;>
    by_cases h2 : env.saveBtnVisible = true <;>
      by_cases h3 : env.altSavePresent = true <;>
        simp [h1, h2, h3, List.countP_append, List.countP_cons, List.countP_nil]

theorem fillBatchTry_retry_eq (env : Env) (l : List FillInstruction)
    (hbtn : env.selectedBtnPresent = true)
    (hclick : (instructionDays l).filter env.jsClick ≠ [])
    (hpopup : env.popupFirst = true)
    (hretry : (instructionDays l).filter env.retryClick ≠ []) :
    fillBatchTry env (l.map FillArg.instr) =
      if env.popupSecond then
        .ok ⟨(0, l.length), retryTrace env (instructionDays l)⟩
      else
        .ok (fillAndSaveCore env l
          (retryTrace env (instructionDays l) ++ [Action.waitTimeout])) := by
  have h2 : dedupFirst ((l.map (fun i => i.date)).map (fun d => d.day))
      = instructionDays l := by
    simp only [List.map_map]
    rfl
  have h3 : ((instructionDays l).filter env.jsClick).isEmpty = false := by
    cases hq : (instructionDays l).filter env.jsClick with
    | nil => exact absurd hq hclick
    | cons a t => rfl
  have h4 : ((instructionDays l).filter env.retryClick).isEmpty = false := by
    cases hq : (instructionDays l).filter env.retryClick with
    | nil => exact absurd hq hretry
    | cons a t => rfl
  unfold fillBatchTry
  rw [mapMExcept_getDate_map_instr]
  simp only [h2, h3, h4, hbtn, hpopup, Bool.false_eq_true, if_false, if_true,
    List.length_map]
  cases hps : env.popupSecond with
  | true => simp only [if_true, retryTrace, List.append_assoc]
  | false =>
    simp only [Bool.false_eq_true, if_false, fillAndSave_map_instr,
      retryTrace, List.append_assoc]

/-- C3: when the portal's "no selection" notice appears after the first
reveal, exactly one retry is performed (the reveal control is clicked
exactly twice over the whole run); a second notice makes the batch return
(0, N) for its N instructions, and a cleared notice lets the batch proceed
to the fill and save steps. -/
theorem fill_batch_no_selection_retry (env : Env) (l : List FillInstruction)
    (hne : l ≠ [])
    (hbtn : env.selectedBtnPresent = true)
    (hclick : (instructionDays l).filter env.jsClick ≠ [])
    (hpopup : env.popupFirst = true)
    (hretry : (instructionDays l).filter env.retryClick ≠ []) :
    ∃ out, fill_batch env (l.map FillArg.instr) false = .ok out ∧
      out.trace.countP (fun a => a = Action.clickSelectedDays) = 2 ∧
      (env.popupSecond = true → out.result = (0, l.length)) ∧
      (env.popupSecond = false → ∃ tr, out = fillAndSaveCore env l tr) := by
  have hkey := fillBatchTry_retry_eq env l hbtn hclick hpopup hretry
  have hne2 : (l.map FillArg.instr).isEmpty = false := by
    cases l with
    | nil => exact absurd rfl hne
    | cons a t => rfl
  cases hps : env.popupSecond with
  | true =>
    refine ⟨⟨(0, l.length), retryTrace env (instructionDays l)⟩, ?_, ?_, ?_, ?_⟩
    · simp only [fill_batch, hne2, Bool.false_eq_true, if_false, hkey, hps,
        if_true]
    · simp [retryTrace_countP]
    · intro _
      rfl
    · intro hcontra
      exact absurd hcontra (by decide)
  | false =>
    refine ⟨fillAndSaveCore env l
      (retryTrace env (instructionDays l) ++ [Action.waitTimeout]),
      ?_, ?_, ?_, ?_⟩
    · simp only [fill_batch, hne2, Bool.false_eq_true, if_false, hkey, hps]
    · rw [fillAndSaveCore_trace_countP]
      simp [List.countP_append, List.countP_cons, retryTrace_countP]
    · intro hcontra
      exact absurd hcontra (by decide)
    · intro _
      exact ⟨_, rfl⟩

/-- C3 witness: one instruction, every click lands, the notice shows after
both reveals. -/
theorem fill_batch_no_selection_retry_witness :
    ∃ out, fill_batch envRetryTwice ([instrSunday].map FillArg.instr) false
        = .ok out ∧
      out.trace.countP (fun a => a = Action.clickSelectedDays) = 2 ∧
      (envRetryTwice.popupSecond = true → out.result = (0, [instrSunday].length)) ∧
      (envRetryTwice.popupSecond = false →
        ∃ tr, out = fillAndSaveCore envRetryTwice [instrSunday] tr) :=
  fill_batch_no_selection_retry envRetryTwice [instrSunday] (by decide)
    (by decide) (by decide) (by decide) (by decide)

theorem fill_batch_tuple_head_fails (env : Env) (d : Date) (t1 t2 : Time)
    (wt : WorkType) (rest : List FillArg) :
    fill_batch env (FillArg.tup d t1 t2 wt :: rest) false
      = .ok ⟨(0, rest.length + 1), []⟩ := by
  simp [fill_batch, fillBatchTry, mapMExcept, FillArg.getDate]

/-- C1: a non-dry `fill_attendance` with a non-empty selection always
returns (0, N) for the N selected records: the batch is handed plain
4-tuples instead of FillInstructions, the first attribute access inside
fill_batch raises AttributeError, and the catch-all handler reports zero
filled and every instruction failed. -/
theorem fill_attendance_nondry_all_fail (env : Env)
    (records : List AttendanceRecord) (pattern : AttendancePattern)
    (only_dates : Option (List Date))
    (h : records.filter (fillSelects pattern only_dates) ≠ []) :
    fill_attendance env records pattern false only_dates
      = .ok (0, (records.filter (fillSelects pattern only_dates)).length) := by
  unfold fill_attendance
  cases hc : records.filter (fillSelects pattern only_dates) with
  | nil => exact absurd hc h
  | cons r rest =>
    simp only [hc, List.map_cons, List.isEmpty_cons, Bool.false_eq_true,
      if_false, fillTupleOf, fill_batch_tuple_head_fails, Except.map,
      List.length_map, List.length_cons]

/-- C1 witness: one empty Sunday record under the default pattern is
selected, and the run reports it failed. -/
theorem fill_attendance_nondry_all_fail_witness :
    fill_attendance envNothing [recSunday] {} false none
      = .ok (0, ([recSunday].filter (fillSelects {} none)).length) :=
  fill_attendance_nondry_all_fail envNothing [recSunday] {} none (by decide)

end Hilan
